import Mathlib

/-!
Verification development for the WebSocket → ffmpeg relay server
(src/server.js of the youtube-streamer repository).

The per-connection handler of `wss.on('connection', ...)` is embedded as a
step function over an explicit session state.  Machine-level details:

* binary message payloads are byte lists (`List Nat`);
* the process-wide `activeKeys` set is a duplicate-free list of keys;
* `JSON.parse` is a platform function, not repository code; its result on the
  first message's text is carried on the message event (`InitParse`).  Note
  the `ws` library delivers both text- and binary-tagged payloads as a
  `Buffer`, and `JSON.parse` coerces a `Buffer` argument to the very string
  `msg.toString()` produces, so both arms of
  `JSON.parse(isBinary ? msg.toString() : msg)` parse the same text and the
  parse result is a function of the payload alone;
* the asynchronous callbacks registered by the handler (the ffmpeg `close`
  and `stdin.error` listeners, the `ws` `close` listener, and the idle
  interval) are delivered as explicit events; ghost fields of the state
  (`spawned`, `closeFired`, `stdinErrFired`, `wsClosed`, `intervalCleared`)
  record which event sources exist and which one-shot events already fired,
  exactly mirroring the transport/subprocess event semantics.
-/

namespace YtRelay

/-- A binary payload: the bytes of one WebSocket message / Buffer. -/
abbrev Chunk := List Nat

/-- A destination (RTMP) key or URL, as a list of characters. -/
abbrev Key := List Char

/-- The process-wide `activeKeys` set (server.js line 30), as a
duplicate-free list of keys. -/
abbrev Registry := List Key

/-- `activeKeys.add(rtmpKey)` (server.js line 98): a JS `Set.add` inserts
the element only if absent. -/
def regAdd (k : Key) (r : Registry) : Registry :=
  if k ∈ r then r else r ++ [k]

/-- The fixed EBML magic signature `0x1A 0x45 0xDF 0xA3` (server.js line 113). -/
def ebmlSig : Chunk := [0x1A, 0x45, 0xDF, 0xA3]

/-- The header check of server.js line 114, applied to the concatenation of
the buffered chunks:
`concat.length > 4 && concat[0] === 0x1A && concat[1] === 0x45 && concat[2] === 0xDF && concat[3] === 0xA3`. -/
def sniff (b : Chunk) : Bool :=
  decide (b.length > 4) && decide (b.getD 0 0 = 0x1A) && decide (b.getD 1 0 = 0x45) &&
    decide (b.getD 2 0 = 0xDF) && decide (b.getD 3 0 = 0xA3)

/-- The literal characters of the path marker `live2/` in the pattern
`/live2\/(.+)$/` (server.js line 84). -/
def live2Marker : Key := ['l', 'i', 'v', 'e', '2', '/']

/-- JavaScript line terminators, which `.` in a regex never matches. -/
def isLineTermChar (c : Char) : Bool :=
  c == '\n' || c == '\r' || c == Char.ofNat 0x2028 || c == Char.ofNat 0x2029

/-- Whether the regex `live2\/(.+)$` matches at the start of `l`:
`live2/` must be literally present, and `.+` must consume a non-empty
remainder free of line terminators, ending exactly at the end of the
string (`$`, no multiline flag).  Returns the captured group. -/
def keyHere (l : Key) : Option Key :=
  if l.take 6 = live2Marker ∧ l.drop 6 ≠ [] ∧ (l.drop 6).all (fun c => !isLineTermChar c) then
    some (l.drop 6)
  else none

/-- `rtmpUrl.match(/live2\/(.+)$/)` (server.js line 84): the leftmost
position where the pattern matches wins; the captured group is returned. -/
def extractKey : Key → Option Key
  | [] => none
  | c :: cs =>
    match keyHere (c :: cs) with
    | some k => some k
    | none => extractKey cs

/-- The final segment of a string: everything after the last `'/'`
(the whole string when it has no `'/'`). -/
def lastSeg (l : Key) : Key :=
  (l.reverse.takeWhile (fun c => c != '/')).reverse

/-- The structured records the handler sends with `ws.send(JSON.stringify(...))`. -/
inductive SendMsg
  /-- `{ error: 'Invalid init JSON' }` (line 73) -/
  | invalidInitJson
  /-- `{ error: 'Missing rtmpUrl in init message' }` (line 79) -/
  | missingRtmpUrl
  /-- `{ error: 'Invalid RTMP key in URL' }` (line 87) -/
  | invalidRtmpKey
  /-- `{ error: 'RTMP key already in use' }` (line 93) -/
  | keyInUse
  /-- `{ ok: true, info: 'waiting for WebM header' }` (line 103) -/
  | waitingForHeader
  /-- `{ ok: true, info: 'ffmpeg started' }` (line 161) -/
  | ffmpegStarted
  /-- `{ error: 'FFmpeg exited', code, signal }` (line 145); the exit
  code/signal details are environment data and elided. -/
  | ffmpegExited
  /-- `{ error: 'FFmpeg stdin error', message }` (line 151) -/
  | stdinError
  /-- `{ error: 'FFmpeg stdin write error', message }` (line 180) -/
  | stdinWriteError
  deriving Repr, DecidableEq

/-- Observable actions the handler performs, in program order. -/
inductive Output
  /-- `ws.send(JSON.stringify(m))` -/
  | send (m : SendMsg)
  /-- `ws.close()` -/
  | closeWs
  /-- `spawn('ffmpeg', ffArgs, ...)` (line 139); the argument template is
  fixed and its only variable part is the destination URL. -/
  | spawnFfmpeg (url : Key)
  /-- `ffmpeg.stdin.write(bytes)` (lines 156 and 176) -/
  | writeStdin (bytes : Chunk)
  /-- `ffmpeg.stdin.end()` (lines 60 and 189) -/
  | stdinEnd
  /-- `ffmpeg.kill('SIGINT')` (lines 61 and 190) -/
  | kill
  /-- `activeKeys.delete(rtmpKey)` (line 195) -/
  | releaseKey (k : Key)
  /-- `clearInterval(idleInterval)` (line 198) -/
  | clearIntervalCall
  deriving Repr, DecidableEq

/-- Result of `JSON.parse(...)` followed by the truthiness test
`init && init.rtmpUrl ? init.rtmpUrl : null` (line 77) on the first
message's text. `malformed` is a thrown parse error; `ok none` is a parse
without a truthy `rtmpUrl` field; `ok (some u)` carries the URL string. -/
inductive InitParse
  | malformed
  | ok (rtmpUrl : Option Key)
  deriving Repr, DecidableEq

/-- One delivered event for a session. `msg` carries the payload bytes, the
transport's binary tag, the platform's parse result on the payload text, the
value of `Date.now()` during the handler, the observed
`ffmpeg.stdin.writable`, and whether a `ffmpeg.stdin.write` call in this
handler would succeed (rather than throw). -/
inductive Event
  | msg (data : Chunk) (isBinary : Bool) (parse : InitParse) (now : Int)
      (writable : Bool) (writeOk : Bool)
  /-- one tick of `idleInterval` (line 57), at time `now` -/
  | tick (now : Int)
  /-- the spawned process's `close` event (line 141) -/
  | ffmpegClose
  /-- the spawned process's `stdin` `error` event (line 148) -/
  | stdinErrorEvt
  /-- the WebSocket `close` event (line 186) -/
  | wsClose
  deriving Repr, DecidableEq

/-- Per-connection state: the handler's local variables (lines 47–53)
plus ghost flags tracking which asynchronous event sources exist. -/
structure SessionState where
  /-- local `ffmpeg` (line 47): whether the variable holds a process handle -/
  ffmpeg : Bool
  /-- local `started` (line 48) -/
  started : Bool
  /-- local `lastChunkAt` (line 49), milliseconds -/
  lastChunkAt : Int
  /-- local `ffmpegError` (line 50) -/
  ffmpegError : Bool
  /-- local `initialBuffer` (line 51): the buffered chunks, in order -/
  initialBuffer : List Chunk
  /-- local `headerReceived` (line 52) -/
  headerReceived : Bool
  /-- local `rtmpKey` (line 53) -/
  rtmpKey : Option Key
  /-- `ws.rtmpUrl` (line 101) -/
  rtmpUrl : Option Key
  /-- ghost: a subprocess was ever spawned (its listeners exist) -/
  spawned : Bool
  /-- ghost: the subprocess `close` event already fired (it fires once) -/
  closeFired : Bool
  /-- ghost: the subprocess stdin `error` event already fired -/
  stdinErrFired : Bool
  /-- ghost: the WebSocket `close` event already fired (it fires once) -/
  wsClosed : Bool
  /-- ghost: `clearInterval` ran, so no further ticks occur -/
  intervalCleared : Bool
  deriving Repr, DecidableEq

/-- State of a freshly accepted connection (lines 47–53), with
`lastChunkAt = Date.now()` at accept time `t0`. -/
def initSession (t0 : Int) : SessionState :=
  { ffmpeg := false, started := false, lastChunkAt := t0, ffmpegError := false,
    initialBuffer := [], headerReceived := false, rtmpKey := none, rtmpUrl := none,
    spawned := false, closeFired := false, stdinErrFired := false,
    wsClosed := false, intervalCleared := false }

/-- `IDLE_TIMEOUT_MS = 20_000` (line 56). -/
def idleTimeoutMs : Int := 20000

/-- The `ws.on('message', ...)` handler (lines 66–184). -/
def handleMsg (reg : Registry) (s : SessionState) (data : Chunk) (isBinary : Bool)
    (parse : InitParse) (now : Int) (writable : Bool) (writeOk : Bool) :
    Registry × SessionState × List Output :=
  if s.started = false then
    -- lines 68–105: first message is the JSON init record
    match parse with
    | InitParse.malformed => (reg, s, [Output.send SendMsg.invalidInitJson, Output.closeWs])
    | InitParse.ok none => (reg, s, [Output.send SendMsg.missingRtmpUrl, Output.closeWs])
    | InitParse.ok (some url) =>
      -- line 85: `rtmpKey = keyMatch ? keyMatch[1] : null` assigns the
      -- session variable before any of the subsequent checks
      match extractKey url with
      | none => (reg, { s with rtmpKey := none },
          [Output.send SendMsg.invalidRtmpKey, Output.closeWs])
      | some k =>
        if k ∈ reg then
          (reg, { s with rtmpKey := some k },
           [Output.send SendMsg.keyInUse, Output.closeWs])
        else
          (regAdd k reg,
           { s with rtmpKey := some k, rtmpUrl := some url, started := true },
           [Output.send SendMsg.waitingForHeader])
  else if s.headerReceived = false then
    -- lines 107–164: buffer chunks until the EBML header is detected;
    -- the chunk is appended first, then the concatenation is sniffed
    if isBinary = false then (reg, s, [])
    else if sniff (s.initialBuffer ++ [data]).flatten = true then
      (reg,
       { s with headerReceived := true, ffmpeg := true, spawned := true,
                ffmpegError := false, initialBuffer := [] },
       [Output.spawnFfmpeg (s.rtmpUrl.getD []),
        Output.writeStdin (s.initialBuffer ++ [data]).flatten,
        Output.send SendMsg.ffmpegStarted])
    else (reg, { s with initialBuffer := s.initialBuffer ++ [data] }, [])
  else if s.ffmpegError = true then (reg, s, [])
  else if isBinary = false then (reg, s, [])
  else
    -- lines 173–183: streaming; `lastChunkAt` is updated before the write
    if s.ffmpeg = true ∧ writable = true then
      if writeOk = true then
        (reg, { s with lastChunkAt := now }, [Output.writeStdin data])
      else
        (reg, { s with lastChunkAt := now, ffmpegError := true },
         [Output.send SendMsg.stdinWriteError, Output.closeWs])
    else (reg, { s with lastChunkAt := now }, [])

/-- One tick of the idle watchdog (lines 57–64). -/
def handleTick (s : SessionState) (now : Int) : SessionState × List Output :=
  if s.ffmpeg = true ∧ now - s.lastChunkAt > idleTimeoutMs then
    ({ s with ffmpeg := false }, [Output.stdinEnd, Output.kill])
  else (s, [])

/-- The subprocess `close` listener (lines 141–147). -/
def handleFfmpegClose (s : SessionState) : SessionState × List Output :=
  ({ s with ffmpegError := true, ffmpeg := false, closeFired := true },
   [Output.send SendMsg.ffmpegExited, Output.closeWs])

/-- The subprocess stdin `error` listener (lines 148–153). -/
def handleStdinErr (s : SessionState) : SessionState × List Output :=
  ({ s with ffmpegError := true, stdinErrFired := true },
   [Output.send SendMsg.stdinError, Output.closeWs])

/-- The `ws.on('close', ...)` handler (lines 186–199). -/
def handleWsClose (reg : Registry) (s : SessionState) : Registry × SessionState × List Output :=
  let stopOuts : List Output := if s.ffmpeg then [Output.stdinEnd, Output.kill] else []
  let rel : Registry × List Output :=
    match s.rtmpKey with
    | some k => if k ∈ reg then (reg.erase k, [Output.releaseKey k]) else (reg, [])
    | none => (reg, [])
  (rel.1,
   { s with ffmpeg := false, wsClosed := true, intervalCleared := true },
   stopOuts ++ rel.2 ++ [Output.clearIntervalCall])

/-- Dispatch one event to the session's handlers. -/
def sessionStep (reg : Registry) (s : SessionState) :
    Event → Registry × SessionState × List Output
  | Event.msg data isBinary parse now writable writeOk =>
    handleMsg reg s data isBinary parse now writable writeOk
  | Event.tick now =>
    let r := handleTick s now
    (reg, r.1, r.2)
  | Event.ffmpegClose =>
    let r := handleFfmpegClose s
    (reg, r.1, r.2)
  | Event.stdinErrorEvt =>
    let r := handleStdinErr s
    (reg, r.1, r.2)
  | Event.wsClose => handleWsClose reg s

/-- Which events the environment can still deliver: messages and ticks only
while the connection is open and the interval armed; each one-shot
subprocess event at most once, and only if a subprocess was spawned. -/
def validEvent (s : SessionState) : Event → Bool
  | Event.msg _ _ _ _ _ _ => !s.wsClosed
  | Event.tick _ => !s.wsClosed && !s.intervalCleared
  | Event.ffmpegClose => s.spawned && !s.closeFired
  | Event.stdinErrorEvt => s.spawned && !s.stdinErrFired
  | Event.wsClose => !s.wsClosed

/-- Run a session over a list of events, threading the key registry and
collecting the outputs in order. -/
def runSession (reg : Registry) (s : SessionState) :
    List Event → Registry × SessionState × List Output
  | [] => (reg, s, [])
  | e :: es =>
    let r1 := sessionStep reg s e
    let r2 := runSession r1.1 r1.2.1 es
    (r2.1, r2.2.1, r1.2.2 ++ r2.2.2)

/-- The whole server: the shared registry and the per-connection sessions,
indexed in accept order. -/
structure Sys where
  reg : Registry
  sessions : List SessionState
  deriving Repr, DecidableEq

/-- A system-level event: a new connection, or an event of session `i`. -/
inductive SysEvent
  | connect (t0 : Int)
  | sess (i : Nat) (e : Event)
  deriving Repr, DecidableEq

/-- Node.js runs handlers one at a time: a system step is one whole handler
invocation of one session against the shared registry. -/
def sysStep (sys : Sys) : SysEvent → Sys × List Output
  | SysEvent.connect t0 =>
    ({ sys with sessions := sys.sessions ++ [initSession t0] }, [])
  | SysEvent.sess i e =>
    match sys.sessions.get? i with
    | none => (sys, [])
    | some s =>
      let r := sessionStep sys.reg s e
      ({ reg := r.1, sessions := sys.sessions.set i r.2.1 }, r.2.2)

/-- Run the system over an interleaving of session events. -/
def runSys (sys : Sys) : List SysEvent → Sys × List Output
  | [] => (sys, [])
  | e :: es =>
    let r1 := sysStep sys e
    let r2 := runSys r1.1 es
    (r2.1, r1.2 ++ r2.2)

/-- A session currently holds key `k`: its init succeeded (`started`), the
connection has not closed, and its `rtmpKey` is `k`. -/
def holdsKey (s : SessionState) (k : Key) : Bool :=
  s.started && !s.wsClosed && decide (s.rtmpKey = some k)

/-- Outputs that start or feed the subprocess. -/
def isSpawnOrWrite : Output → Bool
  | Output.spawnFfmpeg _ => true
  | Output.writeStdin _ => true
  | _ => false

/-- Outputs that feed bytes to the subprocess input. -/
def isWriteOut : Output → Bool
  | Output.writeStdin _ => true
  | _ => false

/-- Concrete destination URL `a/live2/K0` used in concrete scenarios. -/
def urlK : Key := ['a', '/', 'l', 'i', 'v', 'e', '2', '/', 'K', '0']

/-- The key extracted from `urlK`. -/
def keyK : Key := ['K', '0']

/-- A successful init message carrying `urlK` as `rtmpUrl`. -/
def initEvK : Event := Event.msg [] true (InitParse.ok (some urlK)) 0 true true

/-- A binary stream chunk event with payload `d` (the parse field is unused
outside the init phase). -/
def chunkEv (d : Chunk) : Event := Event.msg d true InitParse.malformed 0 true true

/-- Three publishers connect; A and B both init with the key of `urlK`;
B is rejected and its connection closes; then C inits with the same key. -/
def dupKeyTrace : List SysEvent :=
  [SysEvent.connect 0, SysEvent.connect 0, SysEvent.connect 0,
   SysEvent.sess 0 initEvK, SysEvent.sess 1 initEvK,
   SysEvent.sess 1 Event.wsClose, SysEvent.sess 2 initEvK]

/-- A concrete session in the streaming phase, holding `keyK`. -/
def sStream : SessionState :=
  { ffmpeg := true, started := true, lastChunkAt := 0, ffmpegError := false,
    initialBuffer := [], headerReceived := true, rtmpKey := some keyK,
    rtmpUrl := some urlK, spawned := true, closeFired := false,
    stdinErrFired := false, wsClosed := false, intervalCleared := false }

/-- A concrete session just past a successful init, before any chunk. -/
def sValidating : SessionState :=
  { initSession 0 with started := true, rtmpKey := some keyK, rtmpUrl := some urlK }

/-- The session state right after the idle tick killed the process. -/
def afterKill (s : SessionState) : SessionState := { s with ffmpeg := false }

/-- The session state after the subprocess `close` listener also ran. -/
def afterExit (s : SessionState) : SessionState :=
  { s with ffmpeg := false, ffmpegError := true, closeFired := true }

/-- The fully torn-down session state after the WebSocket `close` listener. -/
def tornDown (s : SessionState) : SessionState :=
  { s with ffmpeg := false, ffmpegError := true, closeFired := true,
           wsClosed := true, intervalCleared := true }

/-! ## Helper lemmas -/

lemma takeWhile_append_stop (p : Char → Bool) (a : List Char) (c : Char) (t : List Char)
    (ha : ∀ x ∈ a, p x = true) (hc : p c = false) :
    (a ++ c :: t).takeWhile p = a := by
  induction a with
  | nil => simp [List.takeWhile_cons, hc]
  | cons x xs ih =>
    have hx := ha x (List.mem_cons_self x xs)
    simp only [List.cons_append, List.takeWhile_cons, hx, if_true]
    rw [ih (fun y hy => ha y (List.mem_cons_of_mem x hy))]

lemma keyHere_structure (l k : Key) (h : keyHere l = some k) :
    l = live2Marker ++ k ∧ k ≠ [] := by
  unfold keyHere at h
  split at h
  · rename_i hcond
    injection h with h
    subst h
    refine ⟨?_, hcond.2.1⟩
    conv_lhs => rw [← List.take_append_drop 6 l]
    rw [hcond.1]
  · exact absurd h (by simp)

lemma extractKey_structure : ∀ l k : Key, extractKey l = some k →
    ∃ p, l = p ++ (live2Marker ++ k) ∧ k ≠ [] := by
  intro l
  induction l with
  | nil => intro k h; simp [extractKey] at h
  | cons c cs ih =>
    intro k h
    unfold extractKey at h
    cases hk : keyHere (c :: cs) with
    | some k0 =>
      rw [hk] at h
      injection h with h
      subst h
      obtain ⟨hs, hne⟩ := keyHere_structure _ _ hk
      exact ⟨[], by simpa using hs, hne⟩
    | none =>
      rw [hk] at h
      obtain ⟨p, hp, hne⟩ := ih k h
      exact ⟨c :: p, by rw [List.cons_append, hp], hne⟩

lemma lastSeg_of_marker (p k : Key) (hk : '/' ∉ k) :
    lastSeg (p ++ (live2Marker ++ k)) = k := by
  unfold lastSeg
  have hrev : (p ++ (live2Marker ++ k)).reverse
      = k.reverse ++ '/' :: (['2', 'e', 'v', 'i', 'l'] ++ p.reverse) := by
    simp [live2Marker]
  rw [hrev, takeWhile_append_stop]
  · exact List.reverse_reverse k
  · intro x hx
    have hxk : x ∈ k := List.mem_reverse.mp hx
    have : x ≠ '/' := fun hxe => hk (hxe ▸ hxk)
    simpa using this
  · simp

lemma step_pre (reg : Registry) (s : SessionState) (e : Event)
    (h : (sessionStep reg s e).2.1.headerReceived = false) :
    s.headerReceived = false
    ∧ (sessionStep reg s e).2.2.all (fun o => !isSpawnOrWrite o) = true
    ∧ (s.ffmpeg = false → (sessionStep reg s e).2.1.ffmpeg = false) := by
  cases e with
  | msg d ib p now w wo =>
    simp only [sessionStep] at h ⊢
    unfold handleMsg at h ⊢
    repeat' split at h
    all_goals simp_all [isSpawnOrWrite]
  | tick now =>
    have hh : s.headerReceived = false := by
      simp only [sessionStep, handleTick] at h
      split at h <;> simpa using h
    refine ⟨hh, ?_, fun hf => ?_⟩
    · simp only [sessionStep, handleTick]
      split <;> simp [isSpawnOrWrite]
    · simp only [sessionStep, handleTick]
      split <;> simp [hf]
  | ffmpegClose =>
    simp only [sessionStep, handleFfmpegClose] at h ⊢
    simp_all [isSpawnOrWrite]
  | stdinErrorEvt =>
    simp only [sessionStep, handleStdinErr] at h ⊢
    simp_all [isSpawnOrWrite]
  | wsClose =>
    have hh : s.headerReceived = false := by
      simpa [sessionStep, handleWsClose] using h
    refine ⟨hh, ?_, by simp [sessionStep, handleWsClose]⟩
    cases hf : s.ffmpeg <;> rcases hk : s.rtmpKey with _ | k <;>
      simp [sessionStep, handleWsClose, hf, hk, isSpawnOrWrite] <;>
      by_cases hm : k ∈ reg <;> simp [hm, isSpawnOrWrite]

lemma run_pre (es : List Event) : ∀ (reg : Registry) (s : SessionState),
    (runSession reg s es).2.1.headerReceived = false →
    s.headerReceived = false
    ∧ (runSession reg s es).2.2.all (fun o => !isSpawnOrWrite o) = true
    ∧ (s.ffmpeg = false → (runSession reg s es).2.1.ffmpeg = false) := by
  induction es with
  | nil =>
    intro reg s h
    simp only [runSession] at h ⊢
    exact ⟨h, rfl, fun hf => hf⟩
  | cons e es ih =>
    intro reg s h
    simp only [runSession] at h ⊢
    have htail := ih (sessionStep reg s e).1 (sessionStep reg s e).2.1 h
    have hstep := step_pre reg s e htail.1
    refine ⟨hstep.1, ?_, fun hf => htail.2.2 (hstep.2.2 hf)⟩
    rw [List.all_append, hstep.2.1, htail.2.1]
    rfl

lemma step_err (reg : Registry) (s : SessionState) (e : Event)
    (h1 : s.headerReceived = true) (h2 : s.ffmpegError = true) :
    (sessionStep reg s e).2.1.headerReceived = true
    ∧ (sessionStep reg s e).2.1.ffmpegError = true
    ∧ (sessionStep reg s e).2.2.all (fun o => !isWriteOut o) = true := by
  cases e with
  | msg d ib p now w wo =>
    simp only [sessionStep]
    unfold handleMsg
    repeat' split
    all_goals simp_all [isWriteOut]
  | tick now =>
    simp only [sessionStep, handleTick]
    split <;> simp_all [isWriteOut]
  | ffmpegClose =>
    simp only [sessionStep, handleFfmpegClose]
    simp_all [isWriteOut]
  | stdinErrorEvt =>
    simp only [sessionStep, handleStdinErr]
    simp_all [isWriteOut]
  | wsClose =>
    refine ⟨by simp [sessionStep, handleWsClose, h1], by simp [sessionStep, handleWsClose, h2], ?_⟩
    cases hf : s.ffmpeg <;> rcases hk : s.rtmpKey with _ | k <;>
      simp [sessionStep, handleWsClose, hf, hk, isWriteOut] <;>
      by_cases hm : k ∈ reg <;> simp [hm, isWriteOut]

lemma run_err (es : List Event) : ∀ (reg : Registry) (s : SessionState),
    s.headerReceived = true → s.ffmpegError = true →
    (runSession reg s es).2.2.all (fun o => !isWriteOut o) = true := by
  induction es with
  | nil => intro reg s _ _; rfl
  | cons e es ih =>
    intro reg s h1 h2
    simp only [runSession]
    have hstep := step_err reg s e h1 h2
    rw [List.all_append, hstep.2.2,
      ih (sessionStep reg s e).1 (sessionStep reg s e).2.1 hstep.1 hstep.2.1]
    rfl

lemma no_release_when_closed (reg : Registry) (s : SessionState) (e : Event) (k : Key)
    (h : s.wsClosed = true) (hv : validEvent s e = true) :
    Output.releaseKey k ∉ (sessionStep reg s e).2.2 := by
  cases e with
  | msg d ib p now w wo => simp [validEvent, h] at hv
  | tick now => simp [validEvent, h] at hv
  | wsClose => simp [validEvent, h] at hv
  | ffmpegClose => simp [sessionStep, handleFfmpegClose]
  | stdinErrorEvt => simp [sessionStep, handleStdinErr]

lemma sniff_iff (b : Chunk) :
    sniff b = true ↔ 4 < b.length ∧ b.take 4 = ebmlSig := by
  rcases b with _ | ⟨a, _ | ⟨b1, _ | ⟨b2, _ | ⟨b3, t⟩⟩⟩⟩ <;>
    simp [sniff, ebmlSig, and_assoc]

/-! ## Claims -/

/-- Claim C1 (refuted; the code contradicts the intent of its own key
registry): session 0 acquires the key of `urlK`; session 1 is rejected as a
duplicate (`tryAcquire` returned false) — but because line 85 assigns
`rtmpKey` before the duplicate check on line 92 and never clears it, session
1's close handler deletes the key from `activeKeys` (the `releaseKey` output
below).  A third session then acquires the same key while session 0 still
holds it: two sessions hold the key simultaneously, violating mutual
exclusion and the claim that a rejected session never removes the key. -/
theorem c1_keyRegistry_violation :
    ((runSys ⟨[], []⟩ dupKeyTrace).1.sessions.get? 0).map (fun s => holdsKey s keyK)
      = some true
    ∧ ((runSys ⟨[], []⟩ dupKeyTrace).1.sessions.get? 2).map (fun s => holdsKey s keyK)
      = some true
    ∧ (runSys ⟨[], []⟩ dupKeyTrace).2 =
        [Output.send SendMsg.waitingForHeader, Output.send SendMsg.keyInUse,
         Output.closeWs, Output.releaseKey keyK, Output.clearIntervalCall,
         Output.send SendMsg.waitingForHeader] := by
  decide

/-- Claim C2 counterexample: on the buffer that is exactly the 4-byte EBML
signature, the code's check `concat.length > 4` fails, so `sniff` returns
`false` where the claim requires `true`. -/
theorem c2_counterexample : sniff ebmlSig = false := by decide

/-- Claim C2 (amended): `sniff` returns `true` iff the buffer is strictly
longer than the 4-byte signature and its leading 4 bytes equal the
signature; in particular every strict prefix of the signature, the exact
signature itself, and any buffer not starting with the signature all give
`false`. -/
theorem c2_sniff_amended :
    (∀ b : Chunk, sniff b = true ↔ 4 < b.length ∧ b.take 4 = ebmlSig)
    ∧ sniff ebmlSig = false :=
  ⟨sniff_iff, by decide⟩

/-- Witness for C2's amended statement at a concrete buffer. -/
theorem c2_sniff_amended_witness : sniff (ebmlSig ++ [0]) = true :=
  (c2_sniff_amended.1 (ebmlSig ++ [0])).mpr (by decide)

/-- Claim C3 counterexample: after a successful init, a first binary chunk
`[0]` not matching the signature is buffered, and a subsequent chunk that
itself begins with the exact signature bytes does NOT cause a spawn or a
success ack: the check applies to the concatenation, which starts with `0`.
The only output of the whole run is the init ack. -/
theorem c3_counterexample :
    (runSession [] (initSession 0) [initEvK, chunkEv [0], chunkEv (ebmlSig ++ [1])]).2.2
      = [Output.send SendMsg.waitingForHeader]
    ∧ (runSession [] (initSession 0)
        [initEvK, chunkEv [0], chunkEv (ebmlSig ++ [1])]).2.1.headerReceived = false
    ∧ (runSession [] (initSession 0)
        [initEvK, chunkEv [0], chunkEv (ebmlSig ++ [1])]).2.1.ffmpeg = false := by
  decide

/-- Claim C3 (amended): for a session that completed init, a first binary
chunk whose bytes fail the sniff is buffered with no acknowledgment, and a
subsequent binary chunk that makes the accumulated concatenated buffer pass
the sniff (start with the signature and exceed four bytes — e.g. when the
first chunk is a strict prefix of the signature) causes the spawn with the
accumulated buffer as initial input, followed by the success ack. -/
theorem c3_amended (reg : Registry) (s : SessionState) (c1 c2 : Chunk)
    (p1 p2 : InitParse) (n1 n2 : Int) (w1 w2 wo1 wo2 : Bool)
    (hs : s.started = true) (hh : s.headerReceived = false)
    (hb : s.initialBuffer = []) (h1 : sniff c1 = false)
    (hm : sniff (c1 ++ c2) = true) :
    handleMsg reg s c1 true p1 n1 w1 wo1 = (reg, { s with initialBuffer := [c1] }, [])
    ∧ handleMsg reg { s with initialBuffer := [c1] } c2 true p2 n2 w2 wo2 =
        (reg,
         { s with headerReceived := true, ffmpeg := true, spawned := true,
                  ffmpegError := false, initialBuffer := [] },
         [Output.spawnFfmpeg (s.rtmpUrl.getD []), Output.writeStdin (c1 ++ c2),
          Output.send SendMsg.ffmpegStarted]) := by
  constructor
  · simp [handleMsg, hs, hh, hb, h1]
  · simp [handleMsg, hs, hh, hm]

/-- Witness for C3's amended statement: first chunk a strict prefix of the
signature, second chunk completing it plus one byte. -/
theorem c3_amended_witness :
    handleMsg [keyK] sValidating [0x1A, 0x45] true InitParse.malformed 0 true true
      = ([keyK], { sValidating with initialBuffer := [[0x1A, 0x45]] }, [])
    ∧ handleMsg [keyK] { sValidating with initialBuffer := [[0x1A, 0x45]] }
        [0xDF, 0xA3, 0] true InitParse.malformed 0 true true
      = ([keyK],
         { sValidating with
           headerReceived := true, ffmpeg := true, spawned := true,
           ffmpegError := false, initialBuffer := [] },
         [Output.spawnFfmpeg (sValidating.rtmpUrl.getD []),
          Output.writeStdin ([0x1A, 0x45] ++ [0xDF, 0xA3, 0]),
          Output.send SendMsg.ffmpegStarted]) :=
  c3_amended [keyK] sValidating [0x1A, 0x45] [0xDF, 0xA3, 0]
    InitParse.malformed InitParse.malformed 0 0 true true true true
    (by decide) (by decide) (by decide) (by decide) (by decide)

/-- Claim C4: a watchdog tick during streaming with no data for longer than
the idle timeout force-stops the process (stdin end + SIGINT, handle
cleared); the process's `close` event then sends one error notice and closes
the connection; the connection's `close` event releases the session's key
from the registry and cancels the interval.  Teardown happens exactly once:
in the final state neither the `wsClose` nor the `ffmpegClose` event can
fire again, and from any closed session no deliverable event ever emits a
key release. -/
theorem c4_idle_teardown (reg : Registry) (s : SessionState) (now : Int) (k : Key)
    (hff : s.ffmpeg = true) (hkey : s.rtmpKey = some k) (hmem : k ∈ reg)
    (hidle : now - s.lastChunkAt > idleTimeoutMs) :
    handleTick s now = (afterKill s, [Output.stdinEnd, Output.kill])
    ∧ handleFfmpegClose (afterKill s) =
        (afterExit s, [Output.send SendMsg.ffmpegExited, Output.closeWs])
    ∧ handleWsClose reg (afterExit s) =
        (reg.erase k, tornDown s, [Output.releaseKey k, Output.clearIntervalCall])
    ∧ validEvent (tornDown s) Event.wsClose = false
    ∧ validEvent (tornDown s) Event.ffmpegClose = false
    ∧ (∀ (reg2 : Registry) (s2 : SessionState) (e2 : Event), s2.wsClosed = true →
        validEvent s2 e2 = true → Output.releaseKey k ∉ (sessionStep reg2 s2 e2).2.2) := by
  refine ⟨?_, ?_, ?_, by simp [validEvent, tornDown], by simp [validEvent, tornDown],
    fun reg2 s2 e2 h hv => no_release_when_closed reg2 s2 e2 k h hv⟩
  · simp [handleTick, afterKill, hff, hidle]
  · simp [handleFfmpegClose, afterKill, afterExit]
  · simp [handleWsClose, afterExit, tornDown, hkey, hmem]

/-- Witness for C4 at a concrete streaming session and tick time. -/
theorem c4_idle_teardown_witness :
    handleTick sStream 30000 = (afterKill sStream, [Output.stdinEnd, Output.kill]) :=
  (c4_idle_teardown [keyK] sStream 30000 keyK (by decide) (by decide)
    (by decide) (by decide)).1

/-- Claim C5: over any event sequence after which the header was never
validated (`headerReceived` is set exactly when the sniff first succeeds and
is never reset, so a false final value means the sniff never matched), no
spawn and no write to a subprocess input ever occurs; and when validation
does succeed, the buffered bytes are forwarded exactly once as the initial
input of the spawn and the buffer is cleared. -/
theorem c5_no_subprocess_without_validation (t0 : Int) (reg : Registry) (es : List Event)
    (h : (runSession reg (initSession t0) es).2.1.headerReceived = false) :
    (runSession reg (initSession t0) es).2.2.all (fun o => !isSpawnOrWrite o) = true
    ∧ (∀ (reg2 : Registry) (s : SessionState) (d : Chunk) (p : InitParse) (now : Int)
        (w wo : Bool), s.started = true → s.headerReceived = false →
        sniff (s.initialBuffer ++ [d]).flatten = true →
        handleMsg reg2 s d true p now w wo =
          (reg2,
           { s with headerReceived := true, ffmpeg := true, spawned := true,
                    ffmpegError := false, initialBuffer := [] },
           [Output.spawnFfmpeg (s.rtmpUrl.getD []),
            Output.writeStdin (s.initialBuffer ++ [d]).flatten,
            Output.send SendMsg.ffmpegStarted])) := by
  refine ⟨(run_pre es reg (initSession t0) h).2.1, ?_⟩
  intro reg2 s d p now w wo hs hh hsn
  simp only [List.flatten_append, List.flatten_cons, List.flatten_nil,
    List.append_nil] at hsn
  simp [handleMsg, hs, hh, hsn]

/-- Witness for C5 on a concrete non-validating run. -/
theorem c5_witness :
    (runSession [] (initSession 0) [initEvK, chunkEv [0]]).2.2.all
      (fun o => !isSpawnOrWrite o) = true :=
  (c5_no_subprocess_without_validation 0 [] [initEvK, chunkEv [0]] (by decide)).1

/-- Claim C6: an init whose extracted key is already active leaves the
registry unchanged, sends exactly one error notice (`RTMP key already in
use`) followed by a close, and the session never proceeds past init
(`started` stays false) and never holds the key; in the concrete two-session
race exactly the first session proceeds. -/
theorem c6_duplicate_rejected (reg : Registry) (s : SessionState) (url k : Key)
    (d : Chunk) (ib : Bool) (now : Int) (w wo : Bool)
    (hs : s.started = false) (hx : extractKey url = some k) (hmem : k ∈ reg) :
    handleMsg reg s d ib (InitParse.ok (some url)) now w wo
      = (reg, { s with rtmpKey := some k },
         [Output.send SendMsg.keyInUse, Output.closeWs])
    ∧ ({ s with rtmpKey := some k } : SessionState).started = false
    ∧ holdsKey { s with rtmpKey := some k } k = false
    ∧ ((runSys ⟨[], []⟩ [SysEvent.connect 0, SysEvent.connect 0,
          SysEvent.sess 0 initEvK, SysEvent.sess 1 initEvK]).1.sessions.map
          SessionState.started) = [true, false] := by
  refine ⟨?_, by simp [hs], by simp [holdsKey, hs], by decide⟩
  simp [handleMsg, hs, hx, hmem]

/-- Witness for C6 at a concrete rejected session. -/
theorem c6_witness :
    handleMsg [keyK] (initSession 0) [] true (InitParse.ok (some urlK)) 0 true true
      = ([keyK], { initSession 0 with rtmpKey := some keyK },
         [Output.send SendMsg.keyInUse, Output.closeWs]) :=
  (c6_duplicate_rejected [keyK] (initSession 0) urlK keyK [] true 0 true true
    (by decide) (by decide) (by decide)).1

/-- Claim C7: during streaming, a failing stdin write sends one error notice
and closes the connection, setting the terminal `ffmpegError` flag; any
later message reaching an errored session is dropped with no outputs and no
state change, and no event sequence from an errored session ever writes to
the subprocess again. -/
theorem c7_write_failure_terminal (reg : Registry) (s : SessionState) (d : Chunk)
    (p : InitParse) (now : Int)
    (hs : s.started = true) (hh : s.headerReceived = true)
    (he : s.ffmpegError = false) (hf : s.ffmpeg = true) :
    handleMsg reg s d true p now true false =
      (reg, { s with lastChunkAt := now, ffmpegError := true },
       [Output.send SendMsg.stdinWriteError, Output.closeWs])
    ∧ (∀ (reg2 : Registry) (s2 : SessionState) (d2 : Chunk) (ib2 : Bool)
        (p2 : InitParse) (n2 : Int) (w2 wo2 : Bool),
        s2.started = true → s2.headerReceived = true → s2.ffmpegError = true →
        handleMsg reg2 s2 d2 ib2 p2 n2 w2 wo2 = (reg2, s2, []))
    ∧ (∀ (es : List Event) (reg3 : Registry) (s3 : SessionState),
        s3.headerReceived = true → s3.ffmpegError = true →
        (runSession reg3 s3 es).2.2.all (fun o => !isWriteOut o) = true) := by
  refine ⟨?_, ?_, fun es reg3 s3 h1 h2 => run_err es reg3 s3 h1 h2⟩
  · simp [handleMsg, hs, hh, he, hf]
  · intro reg2 s2 d2 ib2 p2 n2 w2 wo2 hs2 hh2 he2
    simp [handleMsg, hs2, hh2, he2]

/-- Witness for C7 at a concrete streaming session whose write throws. -/
theorem c7_witness :
    handleMsg [keyK] sStream [7] true InitParse.malformed 5 true false =
      ([keyK], { sStream with lastChunkAt := 5, ffmpegError := true },
       [Output.send SendMsg.stdinWriteError, Output.closeWs]) :=
  (c7_write_failure_terminal [keyK] sStream [7] InitParse.malformed 5
    (by decide) (by decide) (by decide) (by decide)).1

/-- Claim C8: when the pattern matches and the captured key contains no
further `/` separator, the key equals the final segment of the URL; when the
pattern does not match, the init is answered with the invalid-key error
notice and a close, and `rtmpKey` stays null. -/
theorem c8_key_extraction (url k : Key) (reg : Registry) (s : SessionState)
    (d : Chunk) (ib : Bool) (now : Int) (w wo : Bool) :
    (extractKey url = some k → '/' ∉ k → lastSeg url = k)
    ∧ (s.started = false → extractKey url = none →
        handleMsg reg s d ib (InitParse.ok (some url)) now w wo
          = (reg, { s with rtmpKey := none },
             [Output.send SendMsg.invalidRtmpKey, Output.closeWs])) := by
  constructor
  · intro hx hk
    obtain ⟨p, hp, _⟩ := extractKey_structure url k hx
    rw [hp]
    exact lastSeg_of_marker p k hk
  · intro hs hx
    simp [handleMsg, hs, hx]

/-- Witness for C8: the concrete URL's key is its final segment, and a URL
without the marker is rejected. -/
theorem c8_witness :
    lastSeg urlK = keyK
    ∧ handleMsg [] (initSession 0) [] true (InitParse.ok (some ['z'])) 0 true true
        = ([], { initSession 0 with rtmpKey := none },
           [Output.send SendMsg.invalidRtmpKey, Output.closeWs]) :=
  ⟨(c8_key_extraction urlK keyK [] (initSession 0) [] true 0 true true).1
      (by decide) (by decide),
   (c8_key_extraction ['z'] keyK [] (initSession 0) [] true 0 true true).2
      (by decide) (by decide)⟩

/-- Claim C9 (implicit): a watchdog tick is a no-op whenever no process
handle exists — the state (including the buffer) is unchanged and nothing is
output; and along any run from a fresh session that never validates the
header, no process handle ever exists, so a stalled pre-validation publisher
is never timed out. -/
theorem c9_watchdog_prevalidation_noop :
    (∀ (s : SessionState) (now : Int), s.ffmpeg = false → handleTick s now = (s, []))
    ∧ (∀ (t0 : Int) (reg : Registry) (es : List Event),
        (runSession reg (initSession t0) es).2.1.headerReceived = false →
        (runSession reg (initSession t0) es).2.1.ffmpeg = false) := by
  constructor
  · intro s now hf
    simp [handleTick, hf]
  · intro t0 reg es h
    exact (run_pre es reg (initSession t0) h).2.2 rfl

/-- Witness for C9 at a concrete pre-validation session and run. -/
theorem c9_witness :
    handleTick sValidating 999999 = (sValidating, [])
    ∧ (runSession [] (initSession 0) [initEvK, chunkEv [0]]).2.1.ffmpeg = false :=
  ⟨c9_watchdog_prevalidation_noop.1 sValidating 999999 (by decide),
   c9_watchdog_prevalidation_noop.2 0 [] [initEvK, chunkEv [0]] (by decide)⟩

/-- Claim C10 (implicit): before init, the handler's result does not depend
on the transport's binary tag — the first message is parsed as init JSON
either way (both arms of `isBinary ? msg.toString() : msg` denote the same
text for a `ws` Buffer payload) — and the pre-validation buffer is untouched,
so the message is never treated as stream data. -/
theorem c10_init_tag_independent (reg : Registry) (s : SessionState) (d : Chunk)
    (p : InitParse) (now : Int) (w wo : Bool) (h : s.started = false) :
    handleMsg reg s d true p now w wo = handleMsg reg s d false p now w wo
    ∧ (handleMsg reg s d true p now w wo).2.1.initialBuffer = s.initialBuffer := by
  unfold handleMsg
  cases p with
  | malformed => simp [h]
  | ok u =>
    cases u with
    | none => simp [h]
    | some url =>
      cases hx : extractKey url with
      | none => simp [h, hx]
      | some k => by_cases hm : k ∈ reg <;> simp [h, hx, hm]

/-- Witness for C10 at a concrete binary-tagged init message. -/
theorem c10_witness :
    handleMsg [] (initSession 0) [] true (InitParse.ok (some urlK)) 0 true true
      = handleMsg [] (initSession 0) [] false (InitParse.ok (some urlK)) 0 true true :=
  (c10_init_tag_independent [] (initSession 0) [] (InitParse.ok (some urlK)) 0 true true
    (by decide)).1

end YtRelay
